import Mathlib

/-!
# Verification of the Havenix reservation/unlock workflow

A shallow embedding of the reservation/unlock core of the Havenix student
housing marketplace: the property catalog store and reservation ledger
(supabase/migrations/20250607002332_orange_glitter.sql and
20250612233846_royal_mountain.sql), the fee calculator
(src/src/pages/HomePage.tsx), the payment-success unlock workflow and the
property read path (src/unnamed/part_003, a property detail page), the refund
transition (src/src/pages/StudentDashboard.tsx) and the landlord property edit
(src/src/utils/landlordDashboardUtils.ts).

Store rows are records, the database is explicit state, SQL integers are Int,
and a statement that violates the valid_room_count CHECK constraint is
modelled as rolled back. JS numbers in the fee calculator are modelled as
exact rationals, and Math.round as round (round half up, which agrees with
Math.round on every real input since both round halves toward positive
infinity).
-/

namespace Havenix

/-- user_role enum from the schema migration. -/
inductive Role where
  | student
  | landlord
deriving DecidableEq

/-- payment_status enum from the schema migration. -/
inductive PaymentStatus where
  | pending
  | paid
  | refunded
deriving DecidableEq

/-- a row of the users table (the columns the read paths select). -/
structure UserRow where
  uid : Nat
  name : String
  email : String
  role : Role
  phone : Option String
deriving DecidableEq

/-- a row of the properties table (the columns the workflow touches). -/
structure Property where
  pid : Nat
  landlord_id : Nat
  title : String
  location : String
  detailed_location : String
  price : Int
  total_rooms : Int
  rooms_available : Int
  reservation_fee : Int
  is_verified : Bool
  video_url : Option String
deriving DecidableEq

/-- a row of the reservations table. -/
structure Reservation where
  rid : Nat
  student_id : Nat
  property_id : Nat
  payment_status : PaymentStatus
  unlock_granted : Bool
deriving DecidableEq

/-- the relational store: users, properties and reservations. -/
structure DB where
  users : List UserRow
  properties : List Property
  reservations : List Reservation
deriving DecidableEq

/-- valid_room_count CHECK constraint on properties
(migration 20250607002332, line 77):
rooms_available is between 0 and total_rooms. -/
def valid_room_count (p : Property) : Bool :=
  decide (0 ≤ p.rooms_available) && decide (p.rooms_available ≤ p.total_rooms)

/-- a single UPDATE statement on properties: rows matching cond are rewritten
by f, and if any rewritten row would violate the valid_room_count CHECK the
whole statement fails and none is returned (the store rolls it back). -/
def tryUpdateProperties (db : DB) (cond : Property → Bool)
    (f : Property → Property) : Option DB :=
  if db.properties.all (fun p => !cond p || valid_room_count (f p)) then
    some { db with properties := db.properties.map fun p => if cond p then f p else p }
  else
    none

/-- an UPDATE statement on properties whose error the caller ignores: on a
CHECK violation the store state is unchanged. -/
def updateProperties (db : DB) (cond : Property → Bool)
    (f : Property → Property) : DB :=
  (tryUpdateProperties db cond f).getD db

/-- calculateReservationFee from src/src/pages/HomePage.tsx lines 334-337,
the single fee function every call site imports: individualRent is
totalRent / totalSpaces and the fee is Math.round(individualRent * 0.01). -/
def calculateReservationFee (totalRent totalSpaces : Int) : Int :=
  let individualRent : ℚ := (totalRent : ℚ) / (totalSpaces : ℚ)
  round (individualRent * (1 / 100))

/-- dynamicReservationFee at the unlock-time charge site,
src/unnamed/part_003 line 288 (the amount handed to the payment widget). -/
def dynamicReservationFee (p : Property) : Int :=
  calculateReservationFee p.price p.total_rooms

/-- the listing-time display fee, src/src/components/PropertyCard.tsx line 59
(and PropertyList.tsx line 47). -/
def listingCardFee (p : Property) : Int :=
  calculateReservationFee p.price p.total_rooms

/-- handle_reservation_insert trigger (migration 20250607002332 lines
175-192): after a reservation insert with payment_status paid and
unlock_granted true, decrement the property row where the id matches and
rooms_available is positive. -/
def handle_reservation_insert (db : DB) (newRes : Reservation) : DB :=
  if newRes.payment_status = PaymentStatus.paid ∧ newRes.unlock_granted = true then
    updateProperties db
      (fun p => decide (p.pid = newRes.property_id ∧ 0 < p.rooms_available))
      (fun p => { p with rooms_available := p.rooms_available - 1 })
  else
    db

/-- outcome of an INSERT into reservations. -/
inductive InsertOutcome where
  | ok (db : DB)
  | uniqueViolation
deriving DecidableEq

/-- the UNIQUE(student_id, property_id) constraint on reservations
(migration 20250607002332 line 90). -/
def uniqueViolationOn (db : DB) (r : Reservation) : Bool :=
  db.reservations.any fun x =>
    decide (x.student_id = r.student_id ∧ x.property_id = r.property_id)

/-- an INSERT into reservations: rejected on a uniqueness violation,
otherwise the row is appended and the AFTER INSERT trigger fires. -/
def insertReservation (db : DB) (r : Reservation) : InsertOutcome :=
  if uniqueViolationOn db r then
    InsertOutcome.uniqueViolation
  else
    InsertOutcome.ok
      (handle_reservation_insert { db with reservations := db.reservations ++ [r] } r)

/-- handle_reservation_update trigger (migration 20250607002332 lines
195-206): when payment_status moves from paid to refunded, increment the
property row. The increment is unguarded, so a result above total_rooms hits
the valid_room_count CHECK and aborts the whole transaction (none). -/
def handle_reservation_update (db : DB) (oldR newR : Reservation) : Option DB :=
  if oldR.payment_status = PaymentStatus.paid ∧ newR.payment_status = PaymentStatus.refunded then
    tryUpdateProperties db
      (fun p => decide (p.pid = newR.property_id))
      (fun p => { p with rooms_available := p.rooms_available + 1 })
  else
    some db

/-- row filter of the refund UPDATE: the id equality from the query plus the
row-level policy that a student only updates their own reservation rows. -/
def refundPred (callerId reservationId : Nat) (r : Reservation) : Bool :=
  decide (r.rid = reservationId ∧ r.student_id = callerId)

/-- the SET clause of the refund UPDATE: only payment_status is written. -/
def setRefunded (r : Reservation) : Reservation :=
  { r with payment_status := PaymentStatus.refunded }

/-- the row rewrite of the refund UPDATE statement: every matching
reservation row gets payment_status refunded, nothing else changes. -/
def refundApply (callerId reservationId : Nat) (db : DB) : DB :=
  { db with
    reservations := db.reservations.map fun r =>
      if refundPred callerId reservationId r then setRefunded r else r }

/-- requestRefund from src/src/pages/StudentDashboard.tsx lines 151-167:
UPDATE reservations SET payment_status = refunded WHERE id = reservationId,
restricted by row-level security to rows owned by the caller. id is the
primary key, so at most one row matches; the AFTER UPDATE trigger fires for
it, and a trigger failure rolls the whole transaction back. -/
def requestRefund (db : DB) (callerId reservationId : Nat) : DB :=
  match db.reservations.find? (refundPred callerId reservationId) with
  | none => db
  | some oldR =>
    match handle_reservation_update (refundApply callerId reservationId db)
        oldR (setRefunded oldR) with
    | some db2 => db2
    | none => db

/-- result reported back to the student by handlePaymentSuccess:
the toast at line 169 (already unlocked), the success toast at line 206, or
the generic failure toast at line 223 of src/unnamed/part_003. -/
inductive UnlockOutcome where
  | alreadyUnlocked
  | unlocked
  | genericFailure
deriving DecidableEq

/-- Modelled from the spec: the decrement_rooms remote procedure invoked at
src/unnamed/part_003 line 209 is database code absent from src/ (only its
call site appears there); section 9 of the spec describes it as a separate
RPC decrement call on rooms_available, next to the store-level conditional
decrement pattern, so it is modelled as the store-side decrement guarded by
rooms_available being positive. -/
def decrement_rooms (db : DB) (propertyId : Nat) : DB :=
  updateProperties db
    (fun p => decide (p.pid = propertyId ∧ 0 < p.rooms_available))
    (fun p => { p with rooms_available := p.rooms_available - 1 })

/-- a client-side write of a computed rooms_available value
(src/unnamed/part_003 lines 191-196 and 216-219); a returned error is
ignored by the caller, so a CHECK violation leaves the store unchanged. -/
def clientRoomsWrite (db : DB) (propertyId : Nat) (newValue : Int) : DB :=
  updateProperties db
    (fun p => decide (p.pid = propertyId))
    (fun p => { p with rooms_available := newValue })

/-- a fresh reservation primary key. -/
def freshRid (db : DB) : Nat :=
  db.reservations.foldr (fun r acc => max (r.rid + 1) acc) 0

/-- the reservation row handlePaymentSuccess inserts
(src/unnamed/part_003 lines 176-183): payment_status paid, unlock_granted
true, for the signed-in student and the viewed property. -/
def newReservation (uid propertyId : Nat) (db : DB) : Reservation :=
  { rid := freshRid db, student_id := uid, property_id := propertyId,
    payment_status := PaymentStatus.paid, unlock_granted := true }

/-- a possible concurrent duplicate success callback for the same
(student, property) pair whose insert commits between the idempotency read
(line 161) and the insert (line 176) of handlePaymentSuccess. -/
def raceStep (uid propertyId : Nat) (raceDup : Bool) (db : DB) : DB :=
  if raceDup then
    match insertReservation db (newReservation uid propertyId db) with
    | InsertOutcome.ok d => d
    | InsertOutcome.uniqueViolation => db
  else db

/-- the counter writes handlePaymentSuccess issues after the reservation
insert, in source order (src/unnamed/part_003 lines 190-219): the client
write of Math.max(0, cached - 1) using the stale component value; the
decrement_rooms RPC; a fresh read of rooms_available followed by a write of
Math.max(0, fresh - 1). counterFails makes the writes fail (errors the code
only logs, lines 198-202). -/
def postInsertCounterWrites (prop : Property) (counterFails : Bool) (db : DB) : DB :=
  if counterFails then db
  else
    let db3 := clientRoomsWrite db prop.pid (max 0 (prop.rooms_available - 1))
    let db4 := decrement_rooms db3 prop.pid
    let fresh : Int :=
      (((db4.properties.find? (fun p => decide (p.pid = prop.pid))).map
        Property.rooms_available).getD prop.rooms_available)
    clientRoomsWrite db4 prop.pid (max 0 (fresh - 1))

/-- the body of handlePaymentSuccess past the idempotency read: the insert of
the paid, unlock_granted reservation row (an insert error is thrown at line
187 and caught as the generic failure toast at line 223, with no fallback
read), then the post-insert counter writes. -/
def grantUnlockCore (uid : Nat) (prop : Property) (db : DB)
    (raceDup counterFails : Bool) : DB × UnlockOutcome :=
  match insertReservation (raceStep uid prop.pid raceDup db)
      (newReservation uid prop.pid (raceStep uid prop.pid raceDup db)) with
  | InsertOutcome.uniqueViolation =>
      (raceStep uid prop.pid raceDup db, UnlockOutcome.genericFailure)
  | InsertOutcome.ok db2 =>
      (postInsertCounterWrites prop counterFails db2, UnlockOutcome.unlocked)

/-- handlePaymentSuccess from src/unnamed/part_003 lines 155-227, the
grantUnlock workflow run on the payment-success callback. uid is the signed-in
student, prop the component property state cached by the earlier fetch (its
rooms_available can be stale), db the store state when the callback runs.
The pre-insert idempotency read matches any existing (student, property)
reservation row and returns the already-unlocked state without mutation;
otherwise the insert and counter writes of grantUnlockCore run. -/
def handlePaymentSuccess (uid : Nat) (prop : Property) (db : DB)
    (raceDup counterFails : Bool) : DB × UnlockOutcome :=
  if db.reservations.any (fun r => decide (r.student_id = uid ∧ r.property_id = prop.pid)) then
    (db, UnlockOutcome.alreadyUnlocked)
  else
    grantUnlockCore uid prop db raceDup counterFails

/-- the counter mutation the spec prescribes for an unlock: one atomic
conditional decrement, guarded at the store by rooms_available being
positive. Stated from the spec for comparison with the code path. -/
def specCounterDecrement (db : DB) (propertyId : Nat) : DB :=
  updateProperties db
    (fun p => decide (p.pid = propertyId ∧ 0 < p.rooms_available))
    (fun p => { p with rooms_available := p.rooms_available - 1 })

/-- SELECT policy on properties after migration 20250612233846 lines 19-23
(policy named Anyone can read all properties): USING (true), every row is
readable by any principal. -/
def propertiesReadPolicy (_p : Property) : Bool :=
  true

/-- what the property detail page holds after fetchProperty
(src/unnamed/part_003 lines 64-153): the full property row returned by
select(*), the landlord row (id, name, email, phone) fetched unconditionally,
and the isUnlocked flag from the reservations read filtered on
unlock_granted = true. -/
structure PropertyView where
  propertyRow : Option Property
  landlordRow : Option UserRow
  isUnlocked : Bool
deriving DecidableEq

/-- fetchProperty from src/unnamed/part_003 lines 64-153. An anonymous or
student viewer only sees verified rows (the query adds eq is_verified true);
a landlord viewer queries without that filter. The landlord row is fetched
before and independently of the unlock check. -/
def fetchProperty (db : DB) (user : Option (Nat × Role)) (propertyId : Nat) :
    PropertyView :=
  let requireVerified : Bool :=
    match user with
    | none => true
    | some (_, Role.student) => true
    | some (_, Role.landlord) => false
  let row := db.properties.find? fun p =>
    propertiesReadPolicy p && decide (p.pid = propertyId) &&
      (!requireVerified || p.is_verified)
  match row with
  | none => { propertyRow := none, landlordRow := none, isUnlocked := false }
  | some p =>
    let landlordRow := db.users.find? fun u => decide (u.uid = p.landlord_id)
    let unlocked :=
      match user with
      | none => false
      | some (s, _) => db.reservations.any fun r =>
          decide (r.student_id = s ∧ r.property_id = propertyId ∧ r.unlock_granted = true)
    { propertyRow := some p, landlordRow := landlordRow, isUnlocked := unlocked }

/-- render condition of the detailed-location panel,
src/unnamed/part_003 line 393: isUnlocked and a non-empty detailed_location. -/
def detailedLocationShown (p : Property) (isUnlocked : Bool) : Bool :=
  isUnlocked && !(p.detailed_location == "")

/-- render condition of the landlord contact panel,
src/unnamed/part_003 line 529: isUnlocked and a landlord row present. -/
def landlordContactShown (landlordRow : Option UserRow) (isUnlocked : Bool) : Bool :=
  isUnlocked && landlordRow.isSome

/-- render condition of the gated video media,
src/unnamed/part_003 lines 333 and 455: a video URL present and isUnlocked. -/
def videoTourShown (p : Property) (isUnlocked : Bool) : Bool :=
  p.video_url.isSome && isUnlocked

/-- handleSubmitProperty, edit branch, from
src/src/utils/landlordDashboardUtils.ts lines 27-57: the landlord-owned row
is overwritten with the form data (the id is untouched, landlord_id is set to
the caller and reservation_fee is recomputed from the form); the row-level
policy restricts the update to rows the landlord owns and the
valid_room_count CHECK rejects an edit that breaks the counter bounds. -/
def handleSubmitProperty (db : DB) (landlordId editingId : Nat)
    (form : Property) : DB :=
  updateProperties db
    (fun p => decide (p.pid = editingId ∧ p.landlord_id = landlordId))
    (fun p => { form with
      pid := p.pid,
      landlord_id := landlordId,
      reservation_fee := calculateReservationFee form.price form.total_rooms })

/-- room-counter invariant of the data model:
every property row has 0 ≤ rooms_available ≤ total_rooms. -/
def roomInvariant (db : DB) : Prop :=
  ∀ p ∈ db.properties, 0 ≤ p.rooms_available ∧ p.rooms_available ≤ p.total_rooms

/-- the sample landlord from migration 20250612233846. -/
def landlordUser : UserRow :=
  { uid := 2, name := "Sample Landlord", email := "landlord@example.com",
    role := Role.landlord, phone := some ("+2348012345678") }

/-- the first sample property from migration 20250612233846: price 180000,
4 rooms in total, 3 available, verified. -/
def prop1 : Property :=
  { pid := 1, landlord_id := 2,
    title := "Modern 2-Bedroom Apartment Near LASU",
    location := "Near LASU, Ojo",
    detailed_location := "No. 15 University Road, Opposite LASU Main Gate, Ojo, Lagos State",
    price := 180000, total_rooms := 4, rooms_available := 3,
    reservation_fee := 5000, is_verified := true, video_url := none }

/-- store state with the sample landlord and property and no reservations. -/
def db0 : DB :=
  { users := [landlordUser], properties := [prop1], reservations := [] }

/-- a verified property with 10 rooms in total and 1 left available. -/
def prop3 : Property :=
  { pid := 3, landlord_id := 2,
    title := "Luxury Studio Apartment Near UNILAG",
    location := "Near UNILAG, Akoka",
    detailed_location := "Block 5, Flat 12, University View Estate, Akoka Road, Lagos",
    price := 250000, total_rooms := 10, rooms_available := 1,
    reservation_fee := 7500, is_verified := true, video_url := none }

/-- the stale component state for prop3: fetched when 5 rooms were still
available, while the store has moved on to 1. -/
def cachedProp3 : Property :=
  { prop3 with rooms_available := 5 }

/-- store state where prop3 has a single room left. -/
def dbStale : DB :=
  { users := [landlordUser], properties := [prop3], reservations := [] }

/-- a paid, unlock-granted reservation of student 7 on property 1. -/
def rPaid : Reservation :=
  { rid := 1, student_id := 7, property_id := 1,
    payment_status := PaymentStatus.paid, unlock_granted := true }

/-- store state with the paid reservation rPaid on the sample property. -/
def dbPaid : DB :=
  { users := [landlordUser], properties := [prop1], reservations := [rPaid] }

/-! ## Helper lemmas -/

/-- find? commutes with a conditional row rewrite that preserves the filter. -/
theorem find?_map_ite {α : Type} (pb : α → Bool) (f : α → α)
    (hf : ∀ a, pb (f a) = pb a) :
    ∀ l : List α,
      (l.map fun a => if pb a then f a else a).find? pb = (l.find? pb).map f
  | [] => rfl
  | a :: l => by
    by_cases h : pb a = true
    · rw [List.map_cons, if_pos h, List.find?_cons_of_pos _ ((hf a).trans h),
        List.find?_cons_of_pos _ h]
      rfl
    · rw [List.map_cons, if_neg h, List.find?_cons_of_neg _ h,
        List.find?_cons_of_neg _ h, find?_map_ite pb f hf l]

/-- a successful checked property update leaves the reservations untouched. -/
theorem tryUpdateProperties_reservations {db db' : DB} {cond : Property → Bool}
    {f : Property → Property} (h : tryUpdateProperties db cond f = some db') :
    db'.reservations = db.reservations := by
  rw [tryUpdateProperties] at h
  by_cases hc : db.properties.all (fun p => !cond p || valid_room_count (f p)) = true
  · rw [if_pos hc] at h
    injection h with h
    subst h
    rfl
  · rw [if_neg hc] at h
    exact Option.noConfusion h

/-- a successful checked property update rewrites exactly the matching rows. -/
theorem tryUpdateProperties_eq_some {db : DB} {cond : Property → Bool}
    {f : Property → Property}
    (h : db.properties.all (fun p => !cond p || valid_room_count (f p)) = true) :
    tryUpdateProperties db cond f =
      some { db with properties := db.properties.map fun p => if cond p then f p else p } := by
  rw [tryUpdateProperties, if_pos h]

/-- an error-ignoring property update leaves the reservations untouched. -/
theorem updateProperties_reservations (db : DB) (cond : Property → Bool)
    (f : Property → Property) :
    (updateProperties db cond f).reservations = db.reservations := by
  rw [updateProperties]
  cases h : tryUpdateProperties db cond f with
  | none => rfl
  | some db' => simpa using tryUpdateProperties_reservations h

/-- the insert trigger only touches properties. -/
theorem handle_reservation_insert_reservations (db : DB) (r : Reservation) :
    (handle_reservation_insert db r).reservations = db.reservations := by
  rw [handle_reservation_insert]
  split
  · exact updateProperties_reservations ..
  · rfl

/-- the post-insert counter writes only touch properties. -/
theorem postInsertCounterWrites_reservations (prop : Property) (cf : Bool) (db : DB) :
    (postInsertCounterWrites prop cf db).reservations = db.reservations := by
  rw [postInsertCounterWrites]
  split
  · rfl
  · show (clientRoomsWrite _ _ _).reservations = _
    rw [clientRoomsWrite, updateProperties_reservations, decrement_rooms,
      updateProperties_reservations, clientRoomsWrite, updateProperties_reservations]

/-- the refund row rewrite, read off the structure literal. -/
theorem refundApply_reservations (callerId reservationId : Nat) (db : DB) :
    (refundApply callerId reservationId db).reservations
      = db.reservations.map
          (fun x => if refundPred callerId reservationId x then setRefunded x else x) :=
  rfl

/-- the CHECK constraint spells out the room-counter bounds. -/
theorem valid_room_count_iff {p : Property} :
    valid_room_count p = true ↔ 0 ≤ p.rooms_available ∧ p.rooms_available ≤ p.total_rooms := by
  simp [valid_room_count]

/-- a successful checked property update preserves the room invariant. -/
theorem roomInvariant_tryUpdate {db db' : DB} {cond : Property → Bool}
    {f : Property → Property} (h : tryUpdateProperties db cond f = some db')
    (hdb : roomInvariant db) : roomInvariant db' := by
  rw [tryUpdateProperties] at h
  by_cases hc : db.properties.all (fun p => !cond p || valid_room_count (f p)) = true
  · rw [if_pos hc] at h
    injection h with h
    subst h
    intro q hq
    rw [show ({ db with properties := db.properties.map fun p => if cond p then f p else p } : DB).properties
        = db.properties.map (fun p => if cond p then f p else p) from rfl, List.mem_map] at hq
    obtain ⟨p, hp, rfl⟩ := hq
    by_cases hcp : cond p = true
    · rw [if_pos hcp]
      have hall := List.all_eq_true.mp hc p hp
      rw [hcp] at hall
      simp only [Bool.not_true, Bool.false_or] at hall
      exact valid_room_count_iff.mp hall
    · rw [if_neg hcp]
      exact hdb p hp
  · rw [if_neg hc] at h
    exact Option.noConfusion h

/-- an error-ignoring property update preserves the room invariant. -/
theorem roomInvariant_updateProperties (db : DB) (cond : Property → Bool)
    (f : Property → Property) (hdb : roomInvariant db) :
    roomInvariant (updateProperties db cond f) := by
  rw [updateProperties]
  cases h : tryUpdateProperties db cond f with
  | none => simpa using hdb
  | some db' => simpa using roomInvariant_tryUpdate h hdb

/-- the insert trigger preserves the room invariant. -/
theorem roomInvariant_handle_insert (db : DB) (r : Reservation)
    (hdb : roomInvariant db) : roomInvariant (handle_reservation_insert db r) := by
  rw [handle_reservation_insert]
  split
  · exact roomInvariant_updateProperties _ _ _ hdb
  · exact hdb

/-- a successful reservation insert preserves the room invariant. -/
theorem roomInvariant_insertReservation {db db' : DB} {r : Reservation}
    (h : insertReservation db r = InsertOutcome.ok db') (hdb : roomInvariant db) :
    roomInvariant db' := by
  rw [insertReservation] at h
  by_cases hu : uniqueViolationOn db r = true
  · rw [if_pos hu] at h
    exact InsertOutcome.noConfusion h
  · rw [if_neg hu] at h
    injection h with h
    subst h
    exact roomInvariant_handle_insert _ _ hdb

/-- the injected concurrent duplicate preserves the room invariant. -/
theorem roomInvariant_raceStep (uid propertyId : Nat) (rd : Bool) (db : DB)
    (hdb : roomInvariant db) : roomInvariant (raceStep uid propertyId rd db) := by
  rw [raceStep]
  split
  · cases h : insertReservation db (newReservation uid propertyId db) with
    | ok d => exact roomInvariant_insertReservation h hdb
    | uniqueViolation => exact hdb
  · exact hdb

/-- the post-insert counter writes preserve the room invariant. -/
theorem roomInvariant_postInsertCounterWrites (prop : Property) (cf : Bool)
    (db : DB) (hdb : roomInvariant db) :
    roomInvariant (postInsertCounterWrites prop cf db) := by
  rw [postInsertCounterWrites]
  split
  · exact hdb
  · exact roomInvariant_updateProperties _ _ _
      (roomInvariant_updateProperties _ _ _ (roomInvariant_updateProperties _ _ _ hdb))

/-- the whole unlock workflow preserves the room invariant. -/
theorem roomInvariant_handlePaymentSuccess (uid : Nat) (prop : Property)
    (db : DB) (rd cf : Bool) (hdb : roomInvariant db) :
    roomInvariant (handlePaymentSuccess uid prop db rd cf).1 := by
  rw [handlePaymentSuccess]
  split
  · exact hdb
  · rw [grantUnlockCore]
    cases h : insertReservation (raceStep uid prop.pid rd db)
        (newReservation uid prop.pid (raceStep uid prop.pid rd db)) with
    | uniqueViolation => exact roomInvariant_raceStep uid prop.pid rd db hdb
    | ok db2 =>
      exact roomInvariant_postInsertCounterWrites prop cf db2
        (roomInvariant_insertReservation h (roomInvariant_raceStep uid prop.pid rd db hdb))

/-- the refund transition preserves the room invariant. -/
theorem roomInvariant_requestRefund (db : DB) (callerId reservationId : Nat)
    (hdb : roomInvariant db) :
    roomInvariant (requestRefund db callerId reservationId) := by
  rw [requestRefund]
  cases h1 : db.reservations.find? (refundPred callerId reservationId) with
  | none => exact hdb
  | some r =>
    dsimp only
    cases h2 : handle_reservation_update (refundApply callerId reservationId db)
        r (setRefunded r) with
    | none => exact hdb
    | some db2 =>
      rw [handle_reservation_update] at h2
      split at h2
      · exact roomInvariant_tryUpdate h2 hdb
      · injection h2 with h2
        subst h2
        exact hdb

/-- closed form of the fee: for a positive room count, rounding one percent
of the per-room rent equals the integer division (2 p + 100 r) div (200 r). -/
theorem calculateReservationFee_eq_intDiv (price rooms : ℤ) (hr : 0 < rooms) :
    calculateReservationFee price rooms = (2 * price + 100 * rooms) / (200 * rooms) := by
  rw [calculateReservationFee]
  show round ((price : ℚ) / (rooms : ℚ) * (1 / 100)) = _
  rw [round_eq]
  have hr0 : (rooms : ℚ) ≠ 0 := Int.cast_ne_zero.mpr (ne_of_gt hr)
  have hpos : (0 : ℤ) ≤ 200 * rooms := by positivity
  have hkey : (price : ℚ) / (rooms : ℚ) * (1 / 100) + 1 / 2
      = ((2 * price + 100 * rooms : ℤ) : ℚ) / (((200 * rooms).toNat : ℕ) : ℚ) := by
    have hcast : (((200 * rooms).toNat : ℕ) : ℚ) = ((200 * rooms : ℤ) : ℚ) := by
      rw_mod_cast [Int.toNat_of_nonneg hpos]
    rw [hcast]
    push_cast
    field_simp
    ring
  rw [hkey, Rat.floor_intCast_div_natCast, Int.toNat_of_nonneg hpos]

/-! ## Claim theorems -/

/-- C1. Calling grantUnlock (handlePaymentSuccess) twice in sequence for the
same (student, property) pair does leave exactly one Reservation row (the
second call returns early on the idempotency read), but the counter is NOT
decremented exactly once: the single successful call moves rooms_available of
the sample property from 3 to 0 (trigger decrement, stale client write, RPC
decrement, fetch-then-write), while the single conditional decrement the
claim describes would leave 2. -/
theorem handlePaymentSuccess_twice_not_one_decrement :
    ((handlePaymentSuccess 7 prop1 (handlePaymentSuccess 7 prop1 db0 false false).1
        false false).1.reservations.filter
        fun r => decide (r.student_id = 7 ∧ r.property_id = 1)).length = 1
    ∧ (((handlePaymentSuccess 7 prop1 (handlePaymentSuccess 7 prop1 db0 false false).1
        false false).1.properties.find? fun p => decide (p.pid = 1)).map
        Property.rooms_available) = some 0
    ∧ (handlePaymentSuccess 7 prop1 (handlePaymentSuccess 7 prop1 db0 false false).1
        false false).2 = UnlockOutcome.alreadyUnlocked
    ∧ (((specCounterDecrement db0 1).properties.find? fun p => decide (p.pid = 1)).map
        Property.rooms_available) = some 2 := by
  decide

/-- C2. The counter decrement in grantUnlock is not a single atomic
conditional update: the workflow also issues application-side
read-then-writes from the cached component value. With the component cache
at 5 rooms while the store holds 1, the code ends with rooms_available 2
(the stale write resurrects availability), while the atomic conditional
decrement the claim describes ends with 0. -/
theorem handlePaymentSuccess_counter_read_then_write :
    (((handlePaymentSuccess 7 cachedProp3 dbStale false false).1.properties.find?
        fun p => decide (p.pid = 3)).map Property.rooms_available) = some 2
    ∧ (((specCounterDecrement dbStale 3).properties.find? fun p => decide (p.pid = 3)).map
        Property.rooms_available) = some 0 := by
  decide

/-- C5. A student with no Reservation row on the property still receives the
sensitive fields in the read responses: under the open SELECT policy the
property row comes back whole (detailed_location included) and the landlord
row (email, phone) is fetched before any unlock check; only the page
rendering is gated on isUnlocked, which is false here. -/
theorem fetchProperty_sensitive_without_unlock :
    (fetchProperty db0 (some (7, Role.student)) 1).isUnlocked = false
    ∧ ((fetchProperty db0 (some (7, Role.student)) 1).propertyRow.map
        Property.detailed_location) = some prop1.detailed_location
    ∧ ((fetchProperty db0 (some (7, Role.student)) 1).landlordRow.map
        UserRow.email) = some landlordUser.email
    ∧ ((fetchProperty db0 (some (7, Role.student)) 1).landlordRow.map
        UserRow.phone) = some landlordUser.phone
    ∧ detailedLocationShown prop1 (fetchProperty db0 (some (7, Role.student)) 1).isUnlocked
        = false
    ∧ landlordContactShown (fetchProperty db0 (some (7, Role.student)) 1).landlordRow
        (fetchProperty db0 (some (7, Role.student)) 1).isUnlocked = false := by
  decide

/-- C6. When a concurrent duplicate commits between the idempotency read and
the insert, the uniqueness violation on the insert is not treated as already
reserved: the workflow reports the generic failure (the thrown insert error
caught by the generic toast), not the already-unlocked outcome. -/
theorem handlePaymentSuccess_unique_violation_generic :
    (handlePaymentSuccess 7 prop1 db0 true false).2 = UnlockOutcome.genericFailure
    ∧ ¬ (handlePaymentSuccess 7 prop1 db0 true false).2 = UnlockOutcome.alreadyUnlocked := by
  decide

/-- C3. calculateReservationFee computes round of (price divided by
total_rooms) times one percent: it is definitionally that rounding, it equals
the closed-form integer division (2 p + 100 r) div (200 r) for positive
inputs, the observed example 180000 over 4 rooms gives 450, and the
listing-time display site and the unlock-time charge site are the same
function applied to the same fields. -/
theorem calculateReservationFee_spec (price rooms : ℤ) (hp : 0 < price) (hr : 0 < rooms) :
    calculateReservationFee price rooms = round ((price : ℚ) / (rooms : ℚ) * (1 / 100))
    ∧ calculateReservationFee price rooms = (2 * price + 100 * rooms) / (200 * rooms)
    ∧ calculateReservationFee 180000 4 = 450
    ∧ ∀ p : Property, dynamicReservationFee p = listingCardFee p := by
  refine ⟨rfl, calculateReservationFee_eq_intDiv price rooms hr, ?_, fun p => rfl⟩
  rw [calculateReservationFee_eq_intDiv 180000 4 (by decide)]
  decide

/-- witness for C3 at the observed sample inputs. -/
theorem calculateReservationFee_spec_witness :
    (0 : ℤ) < 180000 ∧ (0 : ℤ) < 4
    ∧ (calculateReservationFee 180000 4 = round ((180000 : ℚ) / (4 : ℚ) * (1 / 100))
       ∧ calculateReservationFee 180000 4 = (2 * 180000 + 100 * 4) / (200 * 4)
       ∧ calculateReservationFee 180000 4 = 450
       ∧ ∀ p : Property, dynamicReservationFee p = listingCardFee p) :=
  ⟨by decide, by decide, calculateReservationFee_spec 180000 4 (by decide) (by decide)⟩

/-- C7. Once the Reservation row has been written, the unlock stands whatever
happens to the counter: for any store state with no prior row for the pair,
the workflow reports the unlocked outcome and the final store contains the
paid, unlock-granted reservation row, for both values of counterFails (all
post-insert counter writes failing) and hence also when the conditional
decrement affects zero rows; nothing ever deletes or rolls back the row. -/
theorem handlePaymentSuccess_unlock_stands (uid : Nat) (prop : Property) (db : DB)
    (counterFails : Bool)
    (hno : (db.reservations.any fun r =>
        decide (r.student_id = uid ∧ r.property_id = prop.pid)) = false) :
    (handlePaymentSuccess uid prop db false counterFails).2 = UnlockOutcome.unlocked
    ∧ ∃ r ∈ (handlePaymentSuccess uid prop db false counterFails).1.reservations,
        r.student_id = uid ∧ r.property_id = prop.pid
        ∧ r.payment_status = PaymentStatus.paid ∧ r.unlock_granted = true := by
  have hu : uniqueViolationOn db (newReservation uid prop.pid db) = false := hno
  have hins : insertReservation db (newReservation uid prop.pid db)
      = InsertOutcome.ok (handle_reservation_insert
          { db with reservations := db.reservations ++ [newReservation uid prop.pid db] }
          (newReservation uid prop.pid db)) := by
    rw [insertReservation, if_neg (by simp only [hu]; exact Bool.false_ne_true)]
  have hE : handlePaymentSuccess uid prop db false counterFails
      = (postInsertCounterWrites prop counterFails
          (handle_reservation_insert
            { db with reservations := db.reservations ++ [newReservation uid prop.pid db] }
            (newReservation uid prop.pid db)), UnlockOutcome.unlocked) := by
    rw [handlePaymentSuccess, if_neg (by simp only [hno]; exact Bool.false_ne_true),
      grantUnlockCore, show raceStep uid prop.pid false db = db from rfl, hins]
  rw [hE]
  refine ⟨rfl, ⟨newReservation uid prop.pid db, ?_, rfl, rfl, rfl, rfl⟩⟩
  rw [postInsertCounterWrites_reservations, handle_reservation_insert_reservations]
  show newReservation uid prop.pid db ∈ db.reservations ++ [newReservation uid prop.pid db]
  simp

/-- witness for C7 on the sample store with the counter writes failing. -/
theorem handlePaymentSuccess_unlock_stands_witness :
    (db0.reservations.any fun r =>
        decide (r.student_id = 7 ∧ r.property_id = prop1.pid)) = false
    ∧ ((handlePaymentSuccess 7 prop1 db0 false true).2 = UnlockOutcome.unlocked
       ∧ ∃ r ∈ (handlePaymentSuccess 7 prop1 db0 false true).1.reservations,
           r.student_id = 7 ∧ r.property_id = prop1.pid
           ∧ r.payment_status = PaymentStatus.paid ∧ r.unlock_granted = true) :=
  ⟨by decide, handlePaymentSuccess_unlock_stands 7 prop1 db0 true (by decide)⟩

/-- C4. requestRefund on a paid reservation owned by the caller, with the
room counters of the property strictly below total_rooms: the row transitions
to refunded, the property gains exactly one room back, the result stays
bounded by total_rooms, and a caller who owns no matching row changes
nothing. -/
theorem requestRefund_paid_transition (db : DB) (callerId reservationId : Nat)
    (r : Reservation) (p : Property)
    (hr : db.reservations.find? (refundPred callerId reservationId) = some r)
    (hpaid : r.payment_status = PaymentStatus.paid)
    (hp : db.properties.find? (fun q => decide (q.pid = r.property_id)) = some p)
    (hok : ∀ q ∈ db.properties, q.pid = r.property_id →
        0 ≤ q.rooms_available ∧ q.rooms_available < q.total_rooms) :
    ((requestRefund db callerId reservationId).reservations.find?
        (refundPred callerId reservationId) = some (setRefunded r)
      ∧ (setRefunded r).payment_status = PaymentStatus.refunded)
    ∧ ((requestRefund db callerId reservationId).properties.find?
        (fun q => decide (q.pid = r.property_id))
          = some { p with rooms_available := p.rooms_available + 1 }
      ∧ p.rooms_available + 1 ≤ p.total_rooms)
    ∧ (∀ caller2 : Nat,
        (∀ x ∈ db.reservations, x.rid = reservationId → ¬ x.student_id = caller2) →
        requestRefund db caller2 reservationId = db) := by
  have hall : (refundApply callerId reservationId db).properties.all
      (fun q => !(decide (q.pid = (setRefunded r).property_id))
        || valid_room_count { q with rooms_available := q.rooms_available + 1 }) = true := by
    rw [List.all_eq_true]
    intro q hq
    have hq' : q ∈ db.properties := hq
    by_cases hqp : q.pid = r.property_id
    · obtain ⟨hb1, hb2⟩ := hok q hq' hqp
      have hvalid : valid_room_count { q with rooms_available := q.rooms_available + 1 } = true := by
        rw [valid_room_count_iff]
        constructor
        · show (0 : ℤ) ≤ q.rooms_available + 1
          omega
        · show q.rooms_available + 1 ≤ q.total_rooms
          omega
      rw [hvalid]
      simp
    · have hfalse : decide (q.pid = (setRefunded r).property_id) = false :=
        decide_eq_false hqp
      rw [hfalse]
      simp
  have htry := tryUpdateProperties_eq_some hall
  have hrun : requestRefund db callerId reservationId
      = { db with
          reservations := db.reservations.map fun x =>
            if refundPred callerId reservationId x then setRefunded x else x,
          properties := db.properties.map fun q =>
            if decide (q.pid = (setRefunded r).property_id)
              then { q with rooms_available := q.rooms_available + 1 } else q } := by
    rw [requestRefund, hr]
    dsimp only
    rw [handle_reservation_update, if_pos ⟨hpaid, rfl⟩, htry]
    rfl
  refine ⟨⟨?_, rfl⟩, ⟨?_, ?_⟩, ?_⟩
  · rw [hrun]
    show (db.reservations.map fun x =>
        if refundPred callerId reservationId x then setRefunded x else x).find?
        (refundPred callerId reservationId) = some (setRefunded r)
    rw [find?_map_ite (refundPred callerId reservationId) setRefunded (fun a => rfl), hr]
    rfl
  · rw [hrun]
    show (db.properties.map fun q : Property =>
        if decide (q.pid = r.property_id)
          then { q with rooms_available := q.rooms_available + 1 } else q).find?
        (fun q : Property => decide (q.pid = r.property_id))
        = some { p with rooms_available := p.rooms_available + 1 }
    rw [find?_map_ite (fun q : Property => decide (q.pid = r.property_id))
      (fun q : Property => { q with rooms_available := q.rooms_available + 1 })
      (fun a => rfl), hp]
    rfl
  · have hmem := List.mem_of_find?_eq_some hp
    have hpt := List.find?_some hp
    have hpid : p.pid = r.property_id := by simpa using hpt
    obtain ⟨hb1, hb2⟩ := hok p hmem hpid
    omega
  · intro caller2 h2
    have hnone : db.reservations.find? (refundPred caller2 reservationId) = none := by
      rw [List.find?_eq_none]
      intro x hx hcon
      rw [refundPred] at hcon
      have hcon' := of_decide_eq_true hcon
      exact h2 x hx hcon'.1 hcon'.2
    rw [requestRefund, hnone]

/-- witness for C4 on the sample store with a paid reservation. -/
theorem requestRefund_paid_transition_witness :
    (dbPaid.reservations.find? (refundPred 7 1) = some rPaid)
    ∧ rPaid.payment_status = PaymentStatus.paid
    ∧ (((requestRefund dbPaid 7 1).reservations.find? (refundPred 7 1)
          = some (setRefunded rPaid)
        ∧ (setRefunded rPaid).payment_status = PaymentStatus.refunded)
      ∧ ((requestRefund dbPaid 7 1).properties.find?
          (fun q => decide (q.pid = rPaid.property_id))
            = some { prop1 with rooms_available := prop1.rooms_available + 1 }
        ∧ prop1.rooms_available + 1 ≤ prop1.total_rooms)
      ∧ (∀ caller2 : Nat,
          (∀ x ∈ dbPaid.reservations, x.rid = 1 → ¬ x.student_id = caller2) →
          requestRefund dbPaid caller2 1 = dbPaid)) :=
  ⟨by decide, by decide,
    requestRefund_paid_transition dbPaid 7 1 rPaid prop1 (by decide) (by decide)
      (by decide) (by decide)⟩

/-- C8. After requestRefund on a paid, unlock-granted reservation, the row
found for the pair still has unlock_granted true and agrees with the old row
on id, student and property; the only possible change is payment_status
becoming refunded (or, when the triggered counter update aborts the
transaction, no change at all). -/
theorem requestRefund_preserves_unlock_granted (db : DB) (callerId reservationId : Nat)
    (r : Reservation)
    (hr : db.reservations.find? (refundPred callerId reservationId) = some r)
    (hpaid : r.payment_status = PaymentStatus.paid)
    (hu : r.unlock_granted = true) :
    ∃ r', (requestRefund db callerId reservationId).reservations.find?
        (refundPred callerId reservationId) = some r'
      ∧ r'.unlock_granted = true
      ∧ r'.rid = r.rid ∧ r'.student_id = r.student_id ∧ r'.property_id = r.property_id
      ∧ (r'.payment_status = PaymentStatus.refunded ∨ r' = r) := by
  rw [requestRefund, hr]
  dsimp only
  cases htry : handle_reservation_update (refundApply callerId reservationId db)
      r (setRefunded r) with
  | none => exact ⟨r, hr, hu, rfl, rfl, rfl, Or.inr rfl⟩
  | some db2 =>
    have hres : db2.reservations = db.reservations.map
        (fun x => if refundPred callerId reservationId x then setRefunded x else x) := by
      rw [handle_reservation_update] at htry
      split at htry
      · exact tryUpdateProperties_reservations htry
      · injection htry with htry
        subst htry
        rfl
    refine ⟨setRefunded r, ?_, hu, rfl, rfl, rfl, Or.inl rfl⟩
    rw [hres, find?_map_ite (refundPred callerId reservationId) setRefunded (fun a => rfl), hr]
    rfl

/-- witness for C8 on the sample store with a paid reservation. -/
theorem requestRefund_preserves_unlock_granted_witness :
    (dbPaid.reservations.find? (refundPred 7 1) = some rPaid)
    ∧ rPaid.payment_status = PaymentStatus.paid
    ∧ rPaid.unlock_granted = true
    ∧ ∃ r', (requestRefund dbPaid 7 1).reservations.find? (refundPred 7 1) = some r'
        ∧ r'.unlock_granted = true
        ∧ r'.rid = rPaid.rid ∧ r'.student_id = rPaid.student_id
        ∧ r'.property_id = rPaid.property_id
        ∧ (r'.payment_status = PaymentStatus.refunded ∨ r' = rPaid) :=
  ⟨by decide, by decide, by decide,
    requestRefund_preserves_unlock_granted dbPaid 7 1 rPaid (by decide) (by decide) (by decide)⟩

/-- C10. Invoking requestRefund twice on the same reservation raises the
counter at most once: whatever the store state, the second invocation leaves
the property rows exactly as the first left them, because the trigger fires
only on the transition from paid to refunded and the second update sees
refunded (or repeats a rolled-back no-op). -/
theorem requestRefund_twice_at_most_one_increment (db : DB) (callerId reservationId : Nat) :
    (requestRefund (requestRefund db callerId reservationId) callerId reservationId).properties
      = (requestRefund db callerId reservationId).properties := by
  cases h1 : db.reservations.find? (refundPred callerId reservationId) with
  | none =>
    have e1 : requestRefund db callerId reservationId = db := by
      rw [requestRefund, h1]
    rw [e1, e1]
  | some r =>
    by_cases hpaid : r.payment_status = PaymentStatus.paid
    · cases htry : tryUpdateProperties (refundApply callerId reservationId db)
          (fun q => decide (q.pid = (setRefunded r).property_id))
          (fun q => { q with rooms_available := q.rooms_available + 1 }) with
      | none =>
        have e1 : requestRefund db callerId reservationId = db := by
          rw [requestRefund, h1]
          dsimp only
          rw [handle_reservation_update, if_pos ⟨hpaid, rfl⟩, htry]
        rw [e1, e1]
      | some db2 =>
        have e1 : requestRefund db callerId reservationId = db2 := by
          rw [requestRefund, h1]
          dsimp only
          rw [handle_reservation_update, if_pos ⟨hpaid, rfl⟩, htry]
        have h2 : db2.reservations.find? (refundPred callerId reservationId)
            = some (setRefunded r) := by
          rw [tryUpdateProperties_reservations htry, refundApply_reservations,
            find?_map_ite (refundPred callerId reservationId) setRefunded (fun a => rfl), h1]
          rfl
        have hno2 : handle_reservation_update (refundApply callerId reservationId db2)
            (setRefunded r) (setRefunded (setRefunded r))
            = some (refundApply callerId reservationId db2) := by
          rw [handle_reservation_update,
            if_neg (fun hc => PaymentStatus.noConfusion hc.1)]
        have e2 : requestRefund db2 callerId reservationId
            = refundApply callerId reservationId db2 := by
          rw [requestRefund, h2]
          dsimp only
          rw [hno2]
        rw [e1, e2]
        rfl
    · have hno1 : handle_reservation_update (refundApply callerId reservationId db)
          r (setRefunded r) = some (refundApply callerId reservationId db) := by
        rw [handle_reservation_update, if_neg (fun hc => hpaid hc.1)]
      have e1 : requestRefund db callerId reservationId
          = refundApply callerId reservationId db := by
        rw [requestRefund, h1]
        dsimp only
        rw [hno1]
      have h2 : (refundApply callerId reservationId db).reservations.find?
          (refundPred callerId reservationId) = some (setRefunded r) := by
        rw [refundApply_reservations,
          find?_map_ite (refundPred callerId reservationId) setRefunded (fun a => rfl), h1]
        rfl
      have hno2 : handle_reservation_update
          (refundApply callerId reservationId (refundApply callerId reservationId db))
          (setRefunded r) (setRefunded (setRefunded r))
          = some (refundApply callerId reservationId (refundApply callerId reservationId db)) := by
        rw [handle_reservation_update,
          if_neg (fun hc => PaymentStatus.noConfusion hc.1)]
      have e2 : requestRefund (refundApply callerId reservationId db) callerId reservationId
          = refundApply callerId reservationId (refundApply callerId reservationId db) := by
        rw [requestRefund, h2]
        dsimp only
        rw [hno2]
      rw [e1, e2]
      rfl

/-- C9. Every operation that mutates the room counters preserves the
invariant 0 ≤ rooms_available ≤ total_rooms: the unlock workflow (whatever
the race and failure flags), the refund transition, and the landlord edit,
because every counter write passes through the store-level valid_room_count
CHECK and a violating statement is rolled back. -/
theorem room_counter_invariant_preserved (db : DB) (hdb : roomInvariant db) :
    (∀ (uid : Nat) (prop : Property) (raceDup counterFails : Bool),
        roomInvariant (handlePaymentSuccess uid prop db raceDup counterFails).1)
    ∧ (∀ callerId reservationId : Nat,
        roomInvariant (requestRefund db callerId reservationId))
    ∧ (∀ (landlordId editingId : Nat) (form : Property),
        roomInvariant (handleSubmitProperty db landlordId editingId form)) :=
  ⟨fun uid prop rd cf => roomInvariant_handlePaymentSuccess uid prop db rd cf hdb,
   fun c i => roomInvariant_requestRefund db c i hdb,
   fun _ _ _ => roomInvariant_updateProperties _ _ _ hdb⟩

/-- witness for C9 on the sample store. -/
theorem room_counter_invariant_preserved_witness :
    roomInvariant db0
    ∧ (∀ (uid : Nat) (prop : Property) (raceDup counterFails : Bool),
        roomInvariant (handlePaymentSuccess uid prop db0 raceDup counterFails).1)
    ∧ (∀ callerId reservationId : Nat,
        roomInvariant (requestRefund db0 callerId reservationId))
    ∧ (∀ (landlordId editingId : Nat) (form : Property),
        roomInvariant (handleSubmitProperty db0 landlordId editingId form)) :=
  ⟨by unfold roomInvariant; decide,
   (room_counter_invariant_preserved db0 (by unfold roomInvariant; decide)).1,
   (room_counter_invariant_preserved db0 (by unfold roomInvariant; decide)).2.1,
   (room_counter_invariant_preserved db0 (by unfold roomInvariant; decide)).2.2⟩

end Havenix
